import Mathlib

/-!
# GearPulse (`scraper.py`) — shallow embedding and verification

This file embeds the data model and operations of the GearPulse scraper
(`src/scraper.py`) as executable Lean definitions and settles the spec's
claims about them.

Modelling conventions:
* Python strings are Lean `String`s; character-level operations work on
  `String.data` (a `List Char`).  `Char.isDigit` / `Char.toLower` model the
  ASCII behaviour of `str.isdigit` / `str.lower`, which is exact on the
  decimal price strings and marker words the program handles.
* Python `round(val / 117.4)` is modelled exactly over the rationals:
  `117.4 = 587/5`, so `val / 117.4 = 5*val / 587`, and Python's banker's
  rounding (round-half-to-even) is implemented on the exact quotient.  The
  tie branch is unreachable because `587` is odd while `2*r` is even.
* External effects (page navigation, DOM waits, the Gemini call, the
  Telegram POST) are modelled by explicit outcome parameters; exceptions
  that the source does not catch become `Except.error` results.
-/

set_option autoImplicit false

namespace GearPulse

/-- `leadEq needle hay` is true when `needle` occurs at the head of `hay`
(character-exact).  Helper for Python's substring test `needle in hay`. -/
def leadEq : List Char → List Char → Bool
  | [], _ => true
  | _ :: _, [] => false
  | a :: as, b :: bs => a == b && leadEq as bs

/-- `hasSubstr needle hay` models Python's `needle in hay` on strings:
`true` iff `needle` occurs as a contiguous substring of `hay`. -/
def hasSubstr (needle : List Char) : List Char → Bool
  | [] => needle.isEmpty
  | c :: rest => leadEq needle (c :: rest) || hasSubstr needle rest

/-- Value of a list of decimal digit characters, models Python's
`int(numeric_part)` (most significant digit first). -/
def digitsVal (cs : List Char) : ℕ :=
  cs.foldl (fun n c => 10 * n + (c.toNat - 48)) 0

/-- Models Python's `round(val / 117.4)` for a non-negative integer `val`,
computed exactly: `117.4 = 587/5`, so the quotient is `5*val/587`.  Python's
`round` is round-half-to-even; the tie branch (`2*r = 587`) is unreachable
since `587` is odd, so nearest-integer rounding is exact here. -/
def pyRoundDiv1174 (val : ℕ) : ℕ :=
  let n := 5 * val
  let q := n / 587
  let r := n % 587
  if 2 * r < 587 then q
  else if 587 < 2 * r then q + 1
  else if q % 2 = 0 then q else q + 1

/-- The negotiable-price marker searched for by `clean_price`
(`"dogovor" in price_str.lower()`, scraper.py line 84). -/
def dogovorMark : List Char := "dogovor".data

/-- The local-currency marker searched for by `clean_price`
(`"din" in price_str.lower()`, scraper.py line 88). -/
def dinMark : List Char := "din".data

/-- Embeds `clean_price` (scraper.py lines 83–90):
empty or negotiable input ↦ `none`; otherwise strip non-digits, and if the
text mentions the local-currency marker or the magnitude exceeds 5000,
convert by `round(val / 117.4)`, else return the magnitude unchanged. -/
def clean_price (price_str : String) : Option ℤ :=
  let chars := price_str.data
  let lowered := chars.map Char.toLower
  if chars = [] ∨ hasSubstr dogovorMark lowered = true then none
  else
    let numeric_part := chars.filter Char.isDigit
    if numeric_part = [] then none
    else
      let val : ℕ := digitsVal numeric_part
      if hasSubstr dinMark lowered = true ∨ 5000 < val then
        some ((pyRoundDiv1174 val : ℕ) : ℤ)
      else some (val : ℤ)

/-- The stripped numeric magnitude of a price string
(`int("".join(filter(str.isdigit, price_str)))`, scraper.py line 85–87). -/
def magnitude (price_str : String) : ℕ :=
  digitsVal (price_str.data.filter Char.isDigit)

/-! ## Listings, extraction and dedup (`scrape_page`, lines 92–136) -/

/-- One entry of `captured_ads` (scraper.py lines 129–134).  The source
appends a dict `{title, price, condition, link}` for the page element whose
id was just recorded in `seen_ad_ids`; `sourceId` records that element id so
the dedup invariant can be stated. -/
structure Listing where
  sourceId : Option String
  title : String
  price : ℤ
  condition : String
  link : String
deriving DecidableEq

/-- One rendered ad element as `scrape_page` reads it (lines 111–127).
`ad_id` is `ad.get_attribute("id")` (`none` when the attribute is absent).
For the three reads whose failure raises inside the per-ad `try` — title,
price text, link href — `none` means that read raises, so the candidate is
skipped.  `condText = none` means the condition element is absent, in which
case the source defaults to `"Polovno"` (line 125). -/
structure AdElement where
  ad_id : Option String
  titleText : Option String
  priceText : Option String
  condText : Option String
  hrefAttr : Option String
deriving DecidableEq

/-- The run-scoped mutable state of `run_scraper` (lines 145–146):
the dedup set `seen_ad_ids` (modelled as a list queried by membership)
and the collected sequence `captured_ads`. -/
structure RunState where
  seen_ad_ids : List (Option String)
  captured_ads : List Listing
deriving DecidableEq

/-- The empty `RunState` every run starts from (lines 145–146). -/
def initState : RunState := ⟨[], []⟩

/-- The condition marker `"novo"` (line 132). -/
def novoMark : List Char := "novo".data

/-- `"New" if "novo" in condition.lower() else "Used"` (line 132). -/
def classifyCondition (condition : String) : String :=
  if hasSubstr novoMark (condition.data.map Char.toLower) = true then "New"
  else "Used"

/-- Embeds one iteration of the per-ad loop of `scrape_page`
(lines 111–136): skip if the id is already seen, otherwise record the id,
read the fields (any failing read skips the candidate via the `except`),
normalize the price, and append to `captured_ads` only when the normalized
price is truthy (`if price_eur:`, line 128 — `None` and `0` are both
falsy). -/
def processAd (base : String) (st : RunState) (ad : AdElement) : RunState :=
  if ad.ad_id ∈ st.seen_ad_ids then st
  else
    let seen1 := ad.ad_id :: st.seen_ad_ids
    match ad.titleText, ad.priceText, ad.hrefAttr with
    | some title, some ptext, some href =>
      let condition := ad.condText.getD "Polovno"
      match clean_price ptext with
      | some price_eur =>
        if price_eur ≠ 0 then
          { seen_ad_ids := seen1,
            captured_ads := st.captured_ads ++
              [{ sourceId := ad.ad_id, title := title, price := price_eur,
                 condition := classifyCondition condition,
                 link := base ++ href }] }
        else { seen_ad_ids := seen1, captured_ads := st.captured_ads }
      | none => { seen_ad_ids := seen1, captured_ads := st.captured_ads }
    | _, _, _ => { seen_ad_ids := seen1, captured_ads := st.captured_ads }

/-- Outcomes of the (up to 3) `page.goto` attempts and of the
`wait_for_selector` DOM wait for one category page, together with the ad
elements the page holds.  `navResults` lists the outcome each `goto`
attempt would have (the source stops at the first success or after
exhausting the retry budget of 3). -/
structure CategoryPage where
  navResults : List Bool
  waitOk : Bool
  ads : List AdElement
deriving DecidableEq

/-- Embeds the retry loop of `scrape_page` (lines 95–105): walk the attempt
outcomes, stopping at the first success; after a failed attempt that is not
the last, sleep 2 seconds (recorded in the returned log).  Returns whether
the page loaded and the list of sleep durations performed. -/
def navAttempts : List Bool → Bool × List ℕ
  | [] => (false, [])
  | ok :: rest =>
    if ok then (true, [])
    else if rest = [] then (false, [])
    else
      let r := navAttempts rest
      (r.1, 2 :: r.2)

/-- Errors that escape the embedded operations: the uncaught
`wait_for_selector` timeout (line 108), the unguarded `captured_ads[ad_idx]`
IndexError (line 162), and an exception raised by the Telegram POST
(line 81). -/
inductive RunError
  | timeoutError
  | indexError
  | deliveryError
deriving DecidableEq

/-- Embeds `scrape_page` (lines 92–136) for one category: if every
navigation attempt fails, return with the state unchanged (line 105); if the
page loads but no ad element appears in time, the timeout exception
propagates (line 108, uncaught); otherwise fold the per-ad extraction over
the page's elements.  The second component is the log of retry sleeps. -/
def scrape_page (base : String) (p : CategoryPage) (st : RunState) :
    Except RunError RunState × List ℕ :=
  match navAttempts p.navResults with
  | (false, log) => (Except.ok st, log)
  | (true, log) =>
    if p.waitOk then (Except.ok (p.ads.foldl (processAd base) st), log)
    else (Except.error RunError.timeoutError, log)

/-- Embeds the category loop of `run_scraper` (lines 148–152): categories
are crawled sequentially, threading `RunState`; an error escaping
`scrape_page` aborts the loop.  (The inter-category 2-second pacing sleep on
line 152 affects no state and is not recorded here.) -/
def crawl (base : String) : List CategoryPage → RunState → Except RunError RunState
  | [], st => Except.ok st
  | p :: rest, st =>
    match (scrape_page base p st).1 with
    | Except.error e => Except.error e
    | Except.ok st1 => crawl base rest st1

/-! ## Batch evaluation and alerting (`analyze_ads_batch`, `send_telegram`,
lines 19–81 and 156–171) -/

/-- One verdict object parsed from the reasoning service's JSON answer.
The send loop reads only `deal['id']` and `deal['reason']`
(lines 161, 167). -/
structure Verdict where
  id : ℤ
  reason : String
deriving DecidableEq

/-- Outcome of the external reasoning-service interaction inside the `try`
of `analyze_ads_batch` (lines 67–73): a parsed verdict list, a request
error from `generate_content`, or a `json.loads` parse error. -/
inductive AiResult
  | ok (verdicts : List Verdict)
  | requestError
  | parseError
deriving DecidableEq

/-- The textual enumeration of the batch sent to the service
(lines 22–24). -/
def ads_list_str (ads_data : List Listing) : String :=
  ads_data.enum.foldl
    (fun acc p =>
      acc ++ "ID: " ++ toString p.1 ++ " | Item: " ++ p.2.title ++
        " | Condition: " ++ p.2.condition ++ " | Price: " ++
        toString p.2.price ++ " EUR\n")
    ""

/-- Embeds `analyze_ads_batch` (lines 19–76): the request/parse outcome is
external input; both failure branches are caught by the `except` and yield
the empty verdict list (lines 74–76). -/
def analyze_ads_batch (ads_data : List Listing) (outcome : AiResult) :
    List Verdict :=
  match outcome with
  | AiResult.ok verdicts => verdicts
  | AiResult.requestError => []
  | AiResult.parseError => []

/-- Outcome of one `requests.post` to the Telegram API (line 81): either an
HTTP response with some status code (`requests` does not raise on error
statuses), or a raised exception (network failure) that `send_telegram`
does not catch. -/
inductive Delivery
  | respond (status : ℕ)
  | raised
deriving DecidableEq

/-- The alert text built in `run_scraper` (lines 164–168). -/
def format_msg (original_ad : Listing) (reason : String) : String :=
  "💎 **DEAL FOUND** 💎\n\n" ++
  "Item: " ++ original_ad.title ++ "\n" ++
  "Price: " ++ toString original_ad.price ++ "€\n" ++
  "AI Reason: " ++ reason ++ "\n\n" ++
  "🔗 [Open Ad](" ++ original_ad.link ++ ")"

/-- Python list indexing `l[i]` with an `int` index: non-negative indices
in range, negative indices wrap from the end, anything else raises
IndexError (`none`). -/
def pyIndex {α : Type} (l : List α) (i : ℤ) : Option α :=
  if 0 ≤ i then l[i.toNat]?
  else if 0 ≤ i + l.length then l[(i + l.length).toNat]?
  else none

/-- Embeds the alert loop of `run_scraper` (lines 160–171): for each
verdict, dereference `captured_ads[ad_idx]` (IndexError aborts the run),
format the message and POST it (`send_telegram`); an exception raised by
the POST propagates and aborts the loop.  Returns the messages passed to
the Telegram call in order, and the error that aborted the loop, if any.
`k` indexes the delivery outcomes of successive POSTs. -/
def send_alerts (ads : List Listing) (delivery : ℕ → Delivery) :
    List Verdict → ℕ → List String × Option RunError
  | [], _ => ([], none)
  | deal :: rest, k =>
    match pyIndex ads deal.id with
    | none => ([], some RunError.indexError)
    | some original_ad =>
      let msg := format_msg original_ad deal.reason
      match delivery k with
      | Delivery.raised => ([msg], some RunError.deliveryError)
      | Delivery.respond _ =>
        let r := send_alerts ads delivery rest (k + 1)
        (msg :: r.1, r.2)

/-- All external inputs of one `run_scraper` execution: the base URL, the
rendered category pages, the reasoning-service outcome, and the outcome of
each successive Telegram POST. -/
structure World where
  base : String
  pages : List CategoryPage
  aiResult : AiResult
  delivery : ℕ → Delivery

/-- Embeds `run_scraper` (lines 138–173): crawl all categories from the
empty state, evaluate the collected batch in one call, then send one alert
per verdict.  `Except.ok msgs` is a run that terminates normally having
POSTed `msgs`; `Except.error e` is a run killed by an uncaught
exception. -/
def run_scraper (w : World) : Except RunError (List String) :=
  match crawl w.base w.pages initState with
  | Except.error e => Except.error e
  | Except.ok st =>
    let deals := analyze_ads_batch st.captured_ads w.aiResult
    match send_alerts st.captured_ads w.delivery deals 0 with
    | (msgs, none) => Except.ok msgs
    | (_, some e) => Except.error e

/-- A concrete category page used by the concrete-run theorems: loads on
the first attempt, the wait succeeds, and it carries three extractable ad
elements with distinct ids. -/
def samplePage : CategoryPage :=
  ⟨[true], true,
   [⟨some "a0", some "T0", some "100", none, some "/l0"⟩,
    ⟨some "a1", some "T1", some "200", none, some "/l1"⟩,
    ⟨some "a2", some "T2", some "300", some "Novo", some "/l2"⟩]⟩

/-! ## Helper lemmas about the price normalizer -/

/-- Unfolded form of `clean_price` (definitional). -/
theorem clean_price_eq (s : String) :
    clean_price s =
      if s.data = [] ∨ hasSubstr dogovorMark (s.data.map Char.toLower) = true then
        none
      else if s.data.filter Char.isDigit = [] then none
      else if hasSubstr dinMark (s.data.map Char.toLower) = true ∨
          5000 < magnitude s then
        some ((pyRoundDiv1174 (magnitude s) : ℕ) : ℤ)
      else some ((magnitude s : ℕ) : ℤ) := rfl

/-- `clean_price` never returns a negative integer: both the converted and
the unconverted branch return the cast of a natural number. -/
theorem clean_price_nonneg (s : String) (n : ℤ) (h : clean_price s = some n) :
    0 ≤ n := by
  rw [clean_price_eq] at h
  split at h
  · exact absurd h (by simp)
  · split at h
    · exact absurd h (by simp)
    · split at h
      · obtain rfl : ((pyRoundDiv1174 (magnitude s) : ℕ) : ℤ) = n :=
          Option.some.injEq .. ▸ h.symm ▸ rfl
        exact Int.natCast_nonneg _
      · obtain rfl : ((magnitude s : ℕ) : ℤ) = n :=
          Option.some.injEq .. ▸ h.symm ▸ rfl
        exact Int.natCast_nonneg _

/-! ## Claims about the Price Normalizer -/

/-- Claim C4: the Price Normalizer maps `""` and `"Po dogovoru"` to no
price, `"450"` to `450`, `"53000 din"` to `round(53000/117.4) = 451`,
`"6000"` to `round(6000/117.4) = 51`; every result is no price or a
non-negative integer; and local-currency conversion applies exactly when
the text contains the `"din"` marker or the stripped magnitude exceeds
5000. -/
theorem clean_price_meets_spec :
    clean_price "" = none ∧
    clean_price "Po dogovoru" = none ∧
    clean_price "450" = some 450 ∧
    clean_price "53000 din" = some 451 ∧
    clean_price "6000" = some 51 ∧
    (∀ s n, clean_price s = some n → 0 ≤ n) ∧
    (∀ s n, clean_price s = some n →
      ((hasSubstr dinMark (s.data.map Char.toLower) = true ∨
          5000 < magnitude s) →
        n = ((pyRoundDiv1174 (magnitude s) : ℕ) : ℤ)) ∧
      (¬(hasSubstr dinMark (s.data.map Char.toLower) = true ∨
          5000 < magnitude s) →
        n = ((magnitude s : ℕ) : ℤ))) := by
  refine ⟨by decide, by decide, by decide, by decide, by decide,
    clean_price_nonneg, ?_⟩
  intro s n h
  rw [clean_price_eq] at h
  split at h
  · exact absurd h (by simp)
  · split at h
    · exact absurd h (by simp)
    · split at h
      next hconv =>
        refine ⟨fun _ => ?_, fun hn => absurd hconv hn⟩
        exact (Option.some_injective ℤ h).symm
      next hconv =>
        refine ⟨fun hn => absurd hn hconv, fun _ => ?_⟩
        exact (Option.some_injective ℤ h).symm

/-- Witness for C4: the conditional conjuncts applied at
`s = "53000 din"`, `n = 451`. -/
theorem clean_price_meets_spec_inst :
    0 ≤ (451 : ℤ) ∧
    (451 : ℤ) = ((pyRoundDiv1174 (magnitude "53000 din") : ℕ) : ℤ) := by
  refine ⟨clean_price_meets_spec.2.2.2.2.2.1 "53000 din" 451 (by decide), ?_⟩
  exact (clean_price_meets_spec.2.2.2.2.2.2 "53000 din" 451 (by decide)).1
    (by decide)

/-- Claim C5 counterexample: the Price Normalizer is not idempotent on its
own output format.  On `"587059"` it returns `5001` (the converted value),
but re-applied to the decimal rendering `"5001"` it converts again (5001
exceeds the 5000 threshold) and returns `43`. -/
theorem clean_price_not_idempotent :
    clean_price "587059" = some 5001 ∧
    clean_price "5001" = some 43 ∧ (43 : ℤ) ≠ 5001 := by
  exact ⟨by decide, by decide, by decide⟩

/-! ## Decimal rendering (for the idempotence claim) -/

/-- Fuel-carrying decimal renderer: digits of `n`, most significant first.
Any `fuel > n` suffices. -/
def natToDigitsFuel : ℕ → ℕ → List Char
  | 0, _ => []
  | fuel + 1, n =>
    if n < 10 then [Char.ofNat (48 + n)]
    else natToDigitsFuel fuel (n / 10) ++ [Char.ofNat (48 + n % 10)]

/-- The decimal string rendering of a natural number (models Python's
`str(n)` for the normalizer's non-negative outputs). -/
def natToDigits (n : ℕ) : List Char := natToDigitsFuel (n + 1) n

/-- Facts about a single decimal digit character. -/
theorem digitChar_facts (d : ℕ) (hd : d < 10) :
    (Char.ofNat (48 + d)).toNat = 48 + d ∧
    Char.toLower (Char.ofNat (48 + d)) = Char.ofNat (48 + d) ∧
    (Char.ofNat (48 + d)).isDigit = true ∧
    Char.ofNat (48 + d) ≠ 'd' := by
  interval_cases d <;> exact ⟨by decide, by decide, by decide, by decide⟩

/-- `digitsVal` of a list extended by one digit character. -/
theorem digitsVal_append (cs : List Char) (c : Char) :
    digitsVal (cs ++ [c]) = 10 * digitsVal cs + (c.toNat - 48) := by
  simp [digitsVal, List.foldl_append]

/-- With sufficient fuel, the rendered digit list is nonempty, consists of
lowercase-fixed decimal digit characters other than `'d'`, and evaluates
back to the rendered number. -/
theorem natToDigitsFuel_spec :
    ∀ fuel n, n < fuel →
      natToDigitsFuel fuel n ≠ [] ∧
      (∀ c ∈ natToDigitsFuel fuel n,
        Char.toLower c = c ∧ c.isDigit = true ∧ c ≠ 'd') ∧
      digitsVal (natToDigitsFuel fuel n) = n := by
  intro fuel
  induction fuel with
  | zero => intro n hn; omega
  | succ fuel ih =>
    intro n hn
    by_cases h10 : n < 10
    · obtain ⟨ht, hl, hdg, hne⟩ := digitChar_facts n h10
      refine ⟨by simp [natToDigitsFuel, h10], ?_, ?_⟩
      · intro c hc
        simp [natToDigitsFuel, h10] at hc
        subst hc
        exact ⟨hl, hdg, hne⟩
      · simp [natToDigitsFuel, h10, digitsVal, ht]
    · have hdiv : n / 10 < fuel := by omega
      obtain ⟨ihne, ihchars, ihval⟩ := ih (n / 10) hdiv
      have hmod : n % 10 < 10 := by omega
      obtain ⟨ht, hl, hdg, hne⟩ := digitChar_facts (n % 10) hmod
      refine ⟨by simp [natToDigitsFuel, h10], ?_, ?_⟩
      · intro c hc
        simp only [natToDigitsFuel, h10, if_false, List.mem_append,
          List.mem_singleton] at hc
        rcases hc with hc | hc
        · exact ihchars c hc
        · subst hc; exact ⟨hl, hdg, hne⟩
      · simp only [natToDigitsFuel, h10, if_false]
        rw [digitsVal_append, ihval, ht]
        omega

/-- A map that fixes every element of a list fixes the list. -/
theorem map_fixed {f : Char → Char} :
    ∀ l : List Char, (∀ c ∈ l, f c = c) → l.map f = l := by
  intro l h
  induction l with
  | nil => rfl
  | cons c rest ih =>
    simp only [List.map_cons]
    rw [h c (by simp), ih fun c' hc' => h c' (by simp [hc'])]

/-- A filter whose predicate holds on every element of a list fixes the
list. -/
theorem filter_fixed {p : Char → Bool} :
    ∀ l : List Char, (∀ c ∈ l, p c = true) → l.filter p = l := by
  intro l h
  induction l with
  | nil => rfl
  | cons c rest ih =>
    rw [List.filter_cons_of_pos (h c (by simp)),
      ih fun c' hc' => h c' (by simp [hc'])]

/-- If a needle starts with a character that occurs nowhere in the
haystack, the needle is not a substring of the haystack. -/
theorem hasSubstr_head_not_mem (d : Char) (tail : List Char) :
    ∀ l : List Char, (∀ c ∈ l, c ≠ d) → hasSubstr (d :: tail) l = false := by
  intro l h
  induction l with
  | nil => rfl
  | cons c rest ih =>
    have hcd : (d == c) = false := by
      have := h c (by simp)
      simp [beq_eq_false_iff_ne]
      exact fun hdc => this hdc.symm
    simp only [hasSubstr, leadEq, hcd, Bool.false_and, Bool.false_or]
    exact ih fun c' hc' => h c' (by simp [hc'])

/-- Claim C5 (amended): the Price Normalizer is idempotent on its own
output format whenever the returned integer does not exceed the 5000
conversion threshold: if `clean_price s = some n` with `n ≤ 5000`, then
re-applying it to the decimal rendering of `n` returns `n` again.  (For
outputs above 5000 the rendered value is converted a second time, as the
counterexample shows.) -/
theorem clean_price_idempotent_upto_threshold (s : String) (n : ℤ)
    (h : clean_price s = some n) (hle : n ≤ 5000) :
    clean_price (String.mk (natToDigits n.toNat)) = some n := by
  have h0 : 0 ≤ n := clean_price_nonneg s n h
  obtain ⟨hne0, hchars0, hval0⟩ :=
    natToDigitsFuel_spec (n.toNat + 1) n.toNat (by omega)
  have hne : natToDigits n.toNat ≠ [] := hne0
  have hchars : ∀ c ∈ natToDigits n.toNat,
      Char.toLower c = c ∧ c.isDigit = true ∧ c ≠ 'd' := hchars0
  have hval : digitsVal (natToDigits n.toNat) = n.toNat := hval0
  have hdata : (String.mk (natToDigits n.toNat)).data = natToDigits n.toNat :=
    rfl
  have hlower :
      (natToDigits n.toNat).map Char.toLower = natToDigits n.toNat :=
    map_fixed _ fun c hc => (hchars c hc).1
  have hdog : hasSubstr dogovorMark (natToDigits n.toNat) = false := by
    have hd : dogovorMark = 'd' :: "ogovor".data := by decide
    rw [hd]
    exact hasSubstr_head_not_mem _ _ _ fun c hc => (hchars c hc).2.2
  have hdin : hasSubstr dinMark (natToDigits n.toNat) = false := by
    have hd : dinMark = 'd' :: "in".data := by decide
    rw [hd]
    exact hasSubstr_head_not_mem _ _ _ fun c hc => (hchars c hc).2.2
  have hfilter :
      (natToDigits n.toNat).filter Char.isDigit = natToDigits n.toNat :=
    filter_fixed _ fun c hc => (hchars c hc).2.1
  have hmag : magnitude (String.mk (natToDigits n.toNat)) = n.toNat := by
    unfold magnitude
    rw [hdata, hfilter]
    exact hval
  rw [clean_price_eq, hdata, hlower, hfilter, hmag, hdog, hdin]
  have hc1 : ¬(natToDigits n.toNat = [] ∨ (false : Bool) = true) := by
    rintro (hx | hx)
    · exact hne hx
    · exact absurd hx (by simp)
  have hc3 : ¬((false : Bool) = true ∨ 5000 < n.toNat) := by
    rintro (hx | hx)
    · exact absurd hx (by simp)
    · omega
  rw [if_neg hc1, if_neg hne, if_neg hc3]
  simp only [Option.some.injEq]
  omega

/-- Witness for the amended C5, at `s = "53000 din"`, `n = 451`. -/
theorem clean_price_idempotent_upto_threshold_inst :
    clean_price (String.mk (natToDigits (451 : ℤ).toNat)) = some 451 :=
  clean_price_idempotent_upto_threshold "53000 din" 451 (by decide)
    (by decide)

/-! ## Claims about extraction (collection condition and dedup) -/

/-- Claim C9 counterexample: a candidate whose price text is `"0"`
normalizes to the integer `0` — not to "no price" — yet it is not added to
`captured_ads`: line 128's `if price_eur:` uses Python truthiness, so a
normalized price of `0` is discarded exactly like a missing price. -/
theorem zero_price_candidate_discarded :
    clean_price "0" = some 0 ∧
    (processAd "B" initState
        ⟨some "x", some "T", some "0", none, some "/l"⟩).captured_ads
      = [] := by
  exact ⟨by decide, by decide⟩

/-- Claim C9 (amended): a fresh candidate (id not yet seen) whose fields
extract successfully is added to `collected` if and only if its price
normalizes to a nonzero integer; a price normalizing to no price or to `0`
is discarded. -/
theorem captured_iff_nonzero_price (base : String) (st : RunState)
    (ad : AdElement) (t pt href : String)
    (hfresh : ad.ad_id ∉ st.seen_ad_ids)
    (ht : ad.titleText = some t) (hp : ad.priceText = some pt)
    (hh : ad.hrefAttr = some href) :
    (∃ l, (processAd base st ad).captured_ads = st.captured_ads ++ [l]) ↔
      (∃ v, clean_price pt = some v ∧ v ≠ 0) := by
  have hgrow : ∀ l : Listing, st.captured_ads ≠ st.captured_ads ++ [l] := by
    intro l hl
    have := congrArg List.length hl
    simp at this
  unfold processAd
  rw [if_neg hfresh, ht, hp, hh]
  dsimp only
  cases hv : clean_price pt with
  | none =>
    dsimp only
    constructor
    · rintro ⟨l, hl⟩
      exact absurd hl (hgrow l)
    · rintro ⟨v, hsome, _⟩
      exact absurd hsome (by simp)
  | some v =>
    dsimp only
    by_cases hz : v ≠ 0
    · rw [if_pos hz]
      constructor
      · intro _
        exact ⟨v, rfl, hz⟩
      · intro _
        exact ⟨_, rfl⟩
    · rw [if_neg hz]
      constructor
      · rintro ⟨l, hl⟩
        exact absurd hl (hgrow l)
      · rintro ⟨v', hsome, hv'⟩
        rw [Option.some.injEq] at hsome
        subst hsome
        exact absurd hv' hz

/-- Witness for the amended C9: a fresh candidate with price text `"450"`
is collected (both sides of the equivalence hold at this input). -/
theorem captured_iff_nonzero_price_inst :
    (∃ l, (processAd "B" initState
        ⟨some "x", some "T", some "450", none, some "/l"⟩).captured_ads
      = initState.captured_ads ++ [l]) ↔
    (∃ v, clean_price "450" = some v ∧ v ≠ 0) :=
  captured_iff_nonzero_price "B" initState
    ⟨some "x", some "T", some "450", none, some "/l"⟩ "T" "450" "/l"
    (by decide) rfl rfl rfl

/-! ## The dedup invariant -/

/-- The dedup invariant of `RunState`: every collected listing's source id
has been recorded in `seen_ad_ids`, and no two collected listings share a
source id. -/
def DedupInv (st : RunState) : Prop :=
  (∀ l ∈ st.captured_ads, l.sourceId ∈ st.seen_ad_ids) ∧
  (st.captured_ads.map Listing.sourceId).Nodup

/-- Processing one ad element preserves the dedup invariant: an element
whose id is already seen is skipped, and an appended listing's id was not
previously in `seen_ad_ids`, hence not among the collected ids. -/
theorem processAd_dedupInv (base : String) (st : RunState) (ad : AdElement)
    (h : DedupInv st) : DedupInv (processAd base st ad) := by
  obtain ⟨hmem, hnd⟩ := h
  have hskip : DedupInv ⟨ad.ad_id :: st.seen_ad_ids, st.captured_ads⟩ :=
    ⟨fun l hl => List.mem_cons_of_mem _ (hmem l hl), hnd⟩
  unfold processAd
  split
  · exact ⟨hmem, hnd⟩
  next hfresh =>
    cases ad.titleText with
    | none => exact hskip
    | some title =>
      cases ad.priceText with
      | none => exact hskip
      | some ptext =>
        cases ad.hrefAttr with
        | none => exact hskip
        | some href =>
          dsimp only
          cases clean_price ptext with
          | none => exact hskip
          | some price_eur =>
            dsimp only
            split
            · constructor
              · intro l hl
                rw [List.mem_append] at hl
                rcases hl with hl | hl
                · exact List.mem_cons_of_mem _ (hmem l hl)
                · rw [List.mem_singleton] at hl
                  subst hl
                  exact List.mem_cons_self _ _
              · rw [List.map_append, List.nodup_append]
                refine ⟨hnd, by simp, ?_⟩
                intro x hx
                simp only [List.map_cons, List.map_nil,
                  List.mem_singleton]
                rintro rfl
                obtain ⟨l, hl, hlid⟩ := List.mem_map.mp hx
                exact hfresh (hlid ▸ hmem l hl)
            · exact hskip

/-- Folding the per-ad extraction over a page's elements preserves the
dedup invariant. -/
theorem foldl_processAd_dedupInv (base : String) :
    ∀ (ads : List AdElement) (st : RunState), DedupInv st →
      DedupInv (ads.foldl (processAd base) st) := by
  intro ads
  induction ads with
  | nil => exact fun st h => h
  | cons ad rest ih =>
    intro st h
    exact ih _ (processAd_dedupInv base st ad h)

/-- `scrape_page` preserves the dedup invariant on its success result. -/
theorem scrape_page_dedupInv (base : String) (p : CategoryPage)
    (st st' : RunState) (h : (scrape_page base p st).1 = Except.ok st')
    (hinv : DedupInv st) : DedupInv st' := by
  unfold scrape_page at h
  cases hnav : navAttempts p.navResults with
  | mk loaded log =>
    rw [hnav] at h
    cases loaded with
    | false =>
      obtain rfl : st = st' := by
        simpa using h
      exact hinv
    | true =>
      dsimp only at h
      by_cases hw : p.waitOk
      · rw [if_pos hw] at h
        obtain rfl : p.ads.foldl (processAd base) st = st' := by
          simpa using h
        exact foldl_processAd_dedupInv base p.ads st hinv
      · rw [if_neg hw] at h
        exact absurd h (by simp)

/-- The category loop preserves the dedup invariant on its success
result. -/
theorem crawl_dedupInv (base : String) :
    ∀ (pages : List CategoryPage) (st st' : RunState),
      crawl base pages st = Except.ok st' → DedupInv st → DedupInv st' := by
  intro pages
  induction pages with
  | nil =>
    intro st st' h hinv
    obtain rfl : st = st' := by simpa [crawl] using h
    exact hinv
  | cons p rest ih =>
    intro st st' h hinv
    unfold crawl at h
    cases hp : (scrape_page base p st).1 with
    | error e => rw [hp] at h; exact absurd h (by simp)
    | ok st1 =>
      rw [hp] at h
      exact ih st1 st' h (scrape_page_dedupInv base p st st1 hp hinv)

/-- Claim C6: for every run (any base URL and any sequence of category
pages, including pages repeating a listing id) that completes its crawl,
no two entries of the final collected sequence share a source id: listings
whose id is already in `seen_ad_ids` are skipped, so the dedup invariant
holds throughout. -/
theorem collected_sourceIds_nodup (base : String)
    (pages : List CategoryPage) (st' : RunState)
    (h : crawl base pages initState = Except.ok st') :
    (st'.captured_ads.map Listing.sourceId).Nodup :=
  (crawl_dedupInv base pages initState st' h (by exact ⟨by simp [initState], by simp [initState]⟩)).2

/-- Witness for C6: two category pages carry an element with the same id
`"A"`; the second occurrence is skipped and the collected ids are
duplicate-free. -/
theorem collected_sourceIds_nodup_inst :
    ((RunState.mk [some "A"]
        [⟨some "A", "T0", 100, "Used", "B/0"⟩]).captured_ads.map
      Listing.sourceId).Nodup :=
  collected_sourceIds_nodup "B"
    [⟨[true], true, [⟨some "A", some "T0", some "100", none, some "/0"⟩]⟩,
     ⟨[true], true, [⟨some "A", some "T1", some "200", none, some "/1"⟩]⟩]
    (RunState.mk [some "A"] [⟨some "A", "T0", 100, "Used", "B/0"⟩])
    (by rfl)

/-! ## Claims about the crawl loop and the run -/

/-- Decidable equality for `Except` results, for evaluating the embedded
run on concrete inputs. -/
instance {ε α : Type} [DecidableEq ε] [DecidableEq α] :
    DecidableEq (Except ε α) := fun x y =>
  match x, y with
  | Except.ok a, Except.ok b =>
    if h : a = b then isTrue (by rw [h]) else isFalse (by simp [h])
  | Except.error e, Except.error f =>
    if h : e = f then isTrue (by rw [h]) else isFalse (by simp [h])
  | Except.ok _, Except.error _ => isFalse (by simp)
  | Except.error _, Except.ok _ => isFalse (by simp)

/-- The category loop distributes over list append. -/
theorem crawl_append (base : String) :
    ∀ (xs ys : List CategoryPage) (st : RunState),
      crawl base (xs ++ ys) st =
        match crawl base xs st with
        | Except.ok st1 => crawl base ys st1
        | Except.error e => Except.error e := by
  intro xs
  induction xs with
  | nil => intro ys st; rfl
  | cons p rest ih =>
    intro ys st
    simp only [List.cons_append, crawl]
    cases hp : (scrape_page base p st).1 with
    | error e => rfl
    | ok st1 => exact ih ys st1

/-- A category whose three navigation attempts all fail is transparent to
the crawl: the run state passes through it unchanged. -/
theorem crawl_drop_failed (base : String) (p : CategoryPage)
    (hfail : p.navResults = [false, false, false]) :
    ∀ (pre post : List CategoryPage) (st : RunState),
      crawl base (pre ++ p :: post) st = crawl base (pre ++ post) st := by
  intro pre
  induction pre with
  | nil =>
    intro post st
    simp only [List.nil_append, crawl]
    have hs : (scrape_page base p st).1 = Except.ok st := by
      unfold scrape_page
      rw [hfail]
      rfl
    rw [hs]
  | cons q rest ih =>
    intro post st
    simp only [List.cons_append, crawl]
    cases hq : (scrape_page base q st).1 with
    | error e => rfl
    | ok st1 => exact ih post st1

/-- Claim C8: if a category's page load fails on all 3 attempts (with a
2-second delay after each failed attempt but the last, hence between
attempts), that category contributes zero listings — `scrape_page` returns
the state unchanged, having slept twice for 2 seconds — and the run is not
aborted: the whole run behaves exactly as if the failed category were
absent, so it still completes and produces the other categories'
alerts. -/
theorem failed_category_skipped_run_completes (base : String)
    (st : RunState) (pre post : List CategoryPage) (p : CategoryPage)
    (ai : AiResult) (d : ℕ → Delivery)
    (hfail : p.navResults = [false, false, false]) :
    scrape_page base p st = (Except.ok st, [2, 2]) ∧
    run_scraper ⟨base, pre ++ p :: post, ai, d⟩ =
      run_scraper ⟨base, pre ++ post, ai, d⟩ := by
  constructor
  · unfold scrape_page
    rw [hfail]
    rfl
  · unfold run_scraper
    dsimp only
    rw [crawl_drop_failed base p hfail pre post initState]

/-- Witness for C8: with the all-fail category placed before `samplePage`,
the run equals the run on `samplePage` alone. -/
theorem failed_category_skipped_run_completes_inst :
    scrape_page "B" ⟨[false, false, false], true, []⟩ initState
      = (Except.ok initState, [2, 2]) ∧
    run_scraper ⟨"B", [⟨[false, false, false], true, []⟩, samplePage],
        AiResult.ok [], fun _ => Delivery.respond 200⟩ =
      run_scraper ⟨"B", [samplePage], AiResult.ok [],
        fun _ => Delivery.respond 200⟩ :=
  failed_category_skipped_run_completes "B" initState [] [samplePage]
    ⟨[false, false, false], true, []⟩ (AiResult.ok [])
    (fun _ => Delivery.respond 200) rfl

/-- Claim C10: if a category page's navigation succeeds but no listing
element appears within the wait, the timeout exception propagates uncaught
and aborts the entire run: whatever categories follow and whatever the
evaluator and messenger would do, the run ends in the timeout error — no
further category is crawled, no batch evaluation occurs, and no alert is
sent. -/
theorem wait_timeout_aborts_run (base : String) (pre : List CategoryPage)
    (p : CategoryPage) (post : List CategoryPage) (ai : AiResult)
    (d : ℕ → Delivery) (st : RunState)
    (hpre : crawl base pre initState = Except.ok st)
    (hnav : (navAttempts p.navResults).1 = true)
    (hwait : p.waitOk = false) :
    run_scraper ⟨base, pre ++ p :: post, ai, d⟩ =
      Except.error RunError.timeoutError := by
  have hp : (scrape_page base p st).1 = Except.error RunError.timeoutError := by
    unfold scrape_page
    cases hn : navAttempts p.navResults with
    | mk b log =>
      cases b with
      | false =>
        rw [hn] at hnav
        exact absurd hnav (by simp)
      | true =>
        simp [hwait]
  have hcrawl : crawl base (pre ++ p :: post) initState =
      Except.error RunError.timeoutError := by
    rw [crawl_append base pre (p :: post) initState, hpre]
    simp only [crawl]
    rw [hp]
  unfold run_scraper
  dsimp only
  rw [hcrawl]

/-- Witness for C10: a page that loads but never shows a listing element,
placed after `samplePage`, kills the whole run with the timeout error. -/
theorem wait_timeout_aborts_run_inst :
    run_scraper ⟨"B", [samplePage, ⟨[true], false, []⟩],
        AiResult.ok [⟨0, "r"⟩], fun _ => Delivery.respond 200⟩ =
      Except.error RunError.timeoutError := by
  have h : crawl "B" [samplePage] initState =
      Except.ok ⟨[some "a2", some "a1", some "a0"],
        [⟨some "a0", "T0", 100, "Used", "B/l0"⟩,
         ⟨some "a1", "T1", 200, "Used", "B/l1"⟩,
         ⟨some "a2", "T2", 300, "New", "B/l2"⟩]⟩ := by decide
  exact wait_timeout_aborts_run "B" [samplePage] ⟨[true], false, []⟩ []
    (AiResult.ok [⟨0, "r"⟩]) (fun _ => Delivery.respond 200)
    ⟨[some "a2", some "a1", some "a0"],
     [⟨some "a0", "T0", 100, "Used", "B/l0"⟩,
      ⟨some "a1", "T1", 200, "Used", "B/l1"⟩,
      ⟨some "a2", "T2", 300, "New", "B/l2"⟩]⟩
    h (by decide) (by decide)

/-- Claim C7: on a request or parse failure of the single batch call, the
Deal Evaluator returns the empty verdict set, and a run whose crawl
completed then terminates normally with zero alerts — the failure is never
fatal. -/
theorem ai_failure_yields_zero_alerts (w : World) (st : RunState)
    (hfail : w.aiResult = AiResult.requestError ∨
      w.aiResult = AiResult.parseError)
    (hcrawl : crawl w.base w.pages initState = Except.ok st) :
    analyze_ads_batch st.captured_ads w.aiResult = [] ∧
    run_scraper w = Except.ok [] := by
  have hz : analyze_ads_batch st.captured_ads w.aiResult = [] := by
    rcases hfail with h | h <;> rw [h] <;> rfl
  refine ⟨hz, ?_⟩
  unfold run_scraper
  rw [hcrawl]
  dsimp only
  rw [hz]
  rfl

/-- Witness for C7: a run over `samplePage` whose reasoning call fails
sends nothing and exits normally. -/
theorem ai_failure_yields_zero_alerts_inst :
    analyze_ads_batch
        (RunState.mk [some "a2", some "a1", some "a0"]
          [⟨some "a0", "T0", 100, "Used", "B/l0"⟩,
           ⟨some "a1", "T1", 200, "Used", "B/l1"⟩,
           ⟨some "a2", "T2", 300, "New", "B/l2"⟩]).captured_ads
        AiResult.requestError = [] ∧
    run_scraper ⟨"B", [samplePage], AiResult.requestError,
        fun _ => Delivery.respond 200⟩ = Except.ok [] :=
 by
  have h : crawl "B" [samplePage] initState =
      Except.ok (RunState.mk [some "a2", some "a1", some "a0"]
        [⟨some "a0", "T0", 100, "Used", "B/l0"⟩,
         ⟨some "a1", "T1", 200, "Used", "B/l1"⟩,
         ⟨some "a2", "T2", 300, "New", "B/l2"⟩]) := by decide
  exact ai_failure_yields_zero_alerts
    ⟨"B", [samplePage], AiResult.requestError, fun _ => Delivery.respond 200⟩
    (RunState.mk [some "a2", some "a1", some "a0"]
      [⟨some "a0", "T0", 100, "Used", "B/l0"⟩,
       ⟨some "a1", "T1", 200, "Used", "B/l1"⟩,
       ⟨some "a2", "T2", 300, "New", "B/l2"⟩])
    (Or.inl rfl) h

/-- Claim C3: for a collected batch of 3 listings with verdicts for
indices 0 and 2 only (any titles, prices, links, reasons, and any HTTP
response statuses), exactly two messaging calls occur: the first is the
formatted alert for `collected[0]` with the first verdict's reason, the
second the formatted alert for `collected[2]` with the second verdict's
reason, and listing 1 produces no call. -/
theorem batch_of_three_two_verdicts_two_alerts (a0 a1 a2 : Listing)
    (r0 r2 : String) (statuses : ℕ → ℕ) :
    send_alerts [a0, a1, a2] (fun k => Delivery.respond (statuses k))
        [⟨0, r0⟩, ⟨2, r2⟩] 0
      = ([format_msg a0 r0, format_msg a2 r2], none) := rfl

/-- Claim C1 refuted (code bug): the alert loop does not validate verdict
indices.  On a batch of 3 collected listings, a verdict with index 5
(outside `[0, 3)`) makes `captured_ads[ad_idx]` raise IndexError and
crashes the run, and a verdict with index `-1` (also outside `[0, 3)`)
produces a Notifier call via Python's negative-index wrap-around — the
claim requires neither a call nor a crash. -/
theorem out_of_range_verdict_crashes_run :
    run_scraper ⟨"B", [samplePage], AiResult.ok [⟨5, "r"⟩],
        fun _ => Delivery.respond 200⟩
      = Except.error RunError.indexError ∧
    run_scraper ⟨"B", [samplePage], AiResult.ok [⟨-1, "r"⟩],
        fun _ => Delivery.respond 200⟩
      = Except.ok [format_msg ⟨some "a2", "T2", 300, "New", "B/l2"⟩ "r"] := by
  refine ⟨?_, ?_⟩ <;> decide

/-- Claim C2 refuted (code bug): `send_telegram` does not catch exceptions
from `requests.post`, so a delivery failure that raises (a network error)
propagates out of the alert loop: with two positive verdicts and the first
POST raising, only the first messaging call is attempted — the second
verdict produces no call and the run dies with the delivery error.  (Only
failures reported as HTTP error responses are non-fatal, since
`requests.post` does not raise on status codes.) -/
theorem delivery_exception_stops_remaining_alerts :
    send_alerts
        [⟨some "a0", "T0", 100, "Used", "B/l0"⟩,
         ⟨some "a1", "T1", 200, "Used", "B/l1"⟩]
        (fun k => if k = 0 then Delivery.raised else Delivery.respond 200)
        [⟨0, "r0"⟩, ⟨1, "r1"⟩] 0
      = ([format_msg ⟨some "a0", "T0", 100, "Used", "B/l0"⟩ "r0"],
         some RunError.deliveryError) ∧
    run_scraper ⟨"B", [samplePage], AiResult.ok [⟨0, "r0"⟩, ⟨1, "r1"⟩],
        fun k => if k = 0 then Delivery.raised else Delivery.respond 200⟩
      = Except.error RunError.deliveryError := by
  refine ⟨?_, ?_⟩ <;> decide

end GearPulse
